import Mathlib

/-!
Shallow embedding of the Pulumi program `index.ts` of the
`pulumi-snowflake-pipeline` repository.

The program is purely declarative: on every evaluation it builds a fixed
list of resource descriptors (4 AWS + 8 Snowflake) and three stack exports.
The only run-time inputs are the stack name (the environment, read via
`pulumi.getStack()`) and the wall clock (`Date.now()` inside the bucket
name), so an evaluation is modelled as a pure function of a `Config`
carrying those two values.

Cross-resource attribute references (`dataBucket.arn`, `snowflakeRole.arn`,
`pulumi.interpolate` templates, …) are unresolved at declaration time; they
are embedded as symbolic `Part.out` components of string values, resolved
later by an arbitrary assignment `σ : String → String → String` standing
for the attribute values the engine reads back from the cloud.
-/

namespace PulumiSnowflake

/-- One component of a (possibly interpolated) string value: either literal
text or a reference to the output attribute `attr` of the resource bound to
the program variable `res`. -/
inductive Part where
  | str (s : String)
  | out (res attr : String)
deriving DecidableEq, Repr

/-- A string-valued resource argument: a list of literal and referenced
parts.  A plain literal is the one-element list `[Part.str s]`. -/
abbrev SVal := List Part

/-- The `Principal` field of an IAM policy statement: either a bare string
(`Principal: "*"`) or an AWS-keyed object (`Principal: { AWS: "*" }`). -/
inductive Principal where
  | plain (s : String)
  | aws (s : String)
deriving DecidableEq, Repr

/-- A `Condition` block; `index.ts` only ever uses `StringEquals`. -/
structure Cond where
  stringEquals : List (String × String)
deriving DecidableEq, Repr

/-- One statement of an IAM policy document.  A JSON `Action` that is a
single string is embedded as a one-element `actions` list; an absent
`Resource` key is the empty `resources` list. -/
structure Statement (α : Type) where
  sid : Option String
  effect : String
  principal : Option Principal
  actions : List String
  resources : List α
  condition : Option Cond
deriving DecidableEq, Repr

/-- An IAM policy document (`Version` plus statement list). -/
structure PolicyDoc (α : Type) where
  version : String
  statement : List (Statement α)
deriving DecidableEq, Repr

/-- One column of the Snowflake table declaration (`name`, `type`, and the
optional `default.expression`). -/
structure Column where
  name : String
  type : String
  default : Option String
deriving DecidableEq, Repr

/-- The value of a single resource-descriptor argument. -/
inductive AttrValue where
  | s (v : SVal)
  | b (v : Bool)
  | n (v : Nat)
  | sList (vs : List SVal)
  | strMap (kvs : List (String × String))
  | json (doc : PolicyDoc SVal)
  | columns (cols : List Column)
deriving DecidableEq, Repr

/-- A resource descriptor: the program variable it is bound to, the Pulumi
logical name, the resource type, and the argument map, in source order. -/
structure ResourceDescriptor where
  varName : String
  logicalName : String
  pulumiType : String
  args : List (String × AttrValue)
deriving DecidableEq, Repr

/-- The configuration surface of one program evaluation: the stack name
(`pulumi.getStack()`) and the value of `Date.now()` at evaluation time. -/
structure Config where
  environment : String
  timestamp : Nat
deriving DecidableEq, Repr

/-- `index.ts` line 10: `const projectName = "data-pipeline"`. -/
def projectName : String := "data-pipeline"

/-- JavaScript's `String.prototype.toUpperCase()` on the ASCII project
name: character-wise upper-casing (a dash stays a dash, so
`"data-pipeline".toUpperCase()` is `DATA-PIPELINE`). -/
def toUpperAscii (s : String) : String := ⟨s.data.map Char.toUpper⟩

/-- `index.ts` line 19: the bucket name template
`` `${projectName}-data-${environment}-${Date.now()}` ``. -/
def bucketName (cfg : Config) : String :=
  projectName ++ "-data-" ++ cfg.environment ++ "-" ++ toString cfg.timestamp

/-- Resource 1 (`index.ts` lines 18-26): the S3 landing-zone bucket. -/
def dataBucket (cfg : Config) : ResourceDescriptor :=
  { varName := "dataBucket"
    logicalName := projectName ++ "-bucket"
    pulumiType := "aws:s3/bucket:Bucket"
    args := [
      ("bucket", .s [.str (bucketName cfg)]),
      ("forceDestroy", .b true),
      ("tags", .strMap [("Project", projectName),
                        ("Environment", cfg.environment),
                        ("ManagedBy", "Pulumi")])] }

/-- The policy document built inside `pulumi.all([dataBucket.arn]).apply`
(`index.ts` lines 31-44), with the bucket ARN kept symbolic. -/
def bucketPolicyDocument : PolicyDoc SVal :=
  { version := "2012-10-17"
    statement := [
      { sid := some "AllowSnowflakeAccess"
        effect := "Allow"
        principal := some (.plain "*")
        actions := ["s3:GetObject", "s3:GetObjectVersion", "s3:ListBucket"]
        resources := [[.out "dataBucket" "arn"],
                      [.out "dataBucket" "arn", .str "/*"]]
        condition := none }] }

/-- Resource 2 (`index.ts` lines 29-45): the bucket policy. -/
def bucketPolicy : ResourceDescriptor :=
  { varName := "bucketPolicy"
    logicalName := projectName ++ "-bucket-policy"
    pulumiType := "aws:s3/bucketPolicy:BucketPolicy"
    args := [
      ("bucket", .s [.out "dataBucket" "id"]),
      ("policy", .json bucketPolicyDocument)] }

/-- The assume-role trust policy (`index.ts` lines 50-67): a constant JSON
string with wildcard principal and a placeholder external id — it holds no
reference to any other resource. -/
def assumeRolePolicyDocument : PolicyDoc SVal :=
  { version := "2012-10-17"
    statement := [
      { sid := none
        effect := "Allow"
        principal := some (.aws "*")
        actions := ["sts:AssumeRole"]
        resources := []
        condition := some { stringEquals :=
          [("sts:ExternalId", "snowflake_external_id")] } }] }

/-- Resource 3 (`index.ts` lines 48-73): the IAM role Snowflake assumes. -/
def snowflakeRole (cfg : Config) : ResourceDescriptor :=
  { varName := "snowflakeRole"
    logicalName := projectName ++ "-snowflake-role"
    pulumiType := "aws:iam/role:Role"
    args := [
      ("name", .s [.str (projectName ++ "-snowflake-access-" ++ cfg.environment)]),
      ("assumeRolePolicy", .json assumeRolePolicyDocument),
      ("tags", .strMap [("Project", projectName),
                        ("Environment", cfg.environment),
                        ("ManagedBy", "Pulumi")])] }

/-- The role policy document built inside `pulumi.all([dataBucket.arn]).apply`
(`index.ts` lines 80-96), with the bucket ARN kept symbolic. -/
def rolePolicyDocument : PolicyDoc SVal :=
  { version := "2012-10-17"
    statement := [
      { sid := none
        effect := "Allow"
        principal := none
        actions := ["s3:GetObject", "s3:GetObjectVersion", "s3:ListBucket",
                    "s3:GetBucketLocation"]
        resources := [[.out "dataBucket" "arn"],
                      [.out "dataBucket" "arn", .str "/*"]]
        condition := none }] }

/-- Resource 4 (`index.ts` lines 76-98): the role's S3 read policy. -/
def snowflakePolicy : ResourceDescriptor :=
  { varName := "snowflakePolicy"
    logicalName := projectName ++ "-snowflake-policy"
    pulumiType := "aws:iam/rolePolicy:RolePolicy"
    args := [
      ("role", .s [.out "snowflakeRole" "id"]),
      ("policy", .json rolePolicyDocument)] }

/-- Resource 5 (`index.ts` lines 105-111): the Snowflake warehouse.  Note
`projectName.toUpperCase()` upper-cases the dash too, so the name is the
constant `DATA-PIPELINE_WH`. -/
def warehouse : ResourceDescriptor :=
  { varName := "warehouse"
    logicalName := projectName ++ "-warehouse"
    pulumiType := "snowflake:index/warehouse:Warehouse"
    args := [
      ("name", .s [.str (toUpperAscii projectName ++ "_WH")]),
      ("warehouseSize", .s [.str "X-SMALL"]),
      ("autoSuspend", .n 60),
      ("autoResume", .b true),
      ("comment", .s [.str "Data pipeline warehouse managed by Pulumi"])] }

/-- Resource 6 (`index.ts` lines 114-117): the Snowflake database. -/
def database : ResourceDescriptor :=
  { varName := "database"
    logicalName := projectName ++ "-database"
    pulumiType := "snowflake:index/database:Database"
    args := [
      ("name", .s [.str (toUpperAscii projectName ++ "_DB")]),
      ("comment", .s [.str "Data pipeline database managed by Pulumi"])] }

/-- Resource 7 (`index.ts` lines 120-124): the Snowflake schema. -/
def schema : ResourceDescriptor :=
  { varName := "schema"
    logicalName := projectName ++ "-schema"
    pulumiType := "snowflake:index/schema:Schema"
    args := [
      ("name", .s [.str "RAW"]),
      ("database", .s [.out "database" "name"]),
      ("comment", .s [.str "Raw data landing schema"])] }

/-- Resource 8 (`index.ts` lines 127-138): the storage integration. -/
def storageIntegration : ResourceDescriptor :=
  { varName := "storageIntegration"
    logicalName := projectName ++ "-storage-integration"
    pulumiType := "snowflake:index/storageIntegration:StorageIntegration"
    args := [
      ("name", .s [.str (toUpperAscii projectName ++ "_S3_INT")]),
      ("type", .s [.str "EXTERNAL_STAGE"]),
      ("storageProvider", .s [.str "S3"]),
      ("enabled", .b true),
      ("storageAwsRoleArn", .s [.out "snowflakeRole" "arn"]),
      ("storageAllowedLocations",
        .sList [[.str "s3://", .out "dataBucket" "bucket", .str "/"]]),
      ("comment", .s [.str "S3 storage integration managed by Pulumi"])] }

/-- Resource 9 (`index.ts` lines 141-151): the CSV file format. -/
def csvFileFormat : ResourceDescriptor :=
  { varName := "csvFileFormat"
    logicalName := projectName ++ "-csv-format"
    pulumiType := "snowflake:index/fileFormat:FileFormat"
    args := [
      ("name", .s [.str "CSV_FORMAT"]),
      ("database", .s [.out "database" "name"]),
      ("schema", .s [.out "schema" "name"]),
      ("formatType", .s [.str "CSV"]),
      ("fieldDelimiter", .s [.str ","]),
      ("skipHeader", .n 1),
      ("nullIf", .sList [[.str "NULL"], [.str "null"], [.str ""]]),
      ("emptyFieldAsNull", .b true),
      ("comment", .s [.str "CSV file format for data ingestion"])] }

/-- Resource 10 (`index.ts` lines 154-163): the Parquet file format. -/
def parquetFileFormat : ResourceDescriptor :=
  { varName := "parquetFileFormat"
    logicalName := projectName ++ "-parquet-format"
    pulumiType := "snowflake:index/fileFormat:FileFormat"
    args := [
      ("name", .s [.str "PARQUET_FORMAT"]),
      ("database", .s [.out "database" "name"]),
      ("schema", .s [.out "schema" "name"]),
      ("formatType", .s [.str "PARQUET"]),
      ("comment", .s [.str "Parquet file format for data ingestion"])] }

/-- Resource 11 (`index.ts` lines 166-173): the external S3 stage. -/
def s3Stage : ResourceDescriptor :=
  { varName := "s3Stage"
    logicalName := projectName ++ "-s3-stage"
    pulumiType := "snowflake:index/stage:Stage"
    args := [
      ("name", .s [.str "S3_STAGE"]),
      ("database", .s [.out "database" "name"]),
      ("schema", .s [.out "schema" "name"]),
      ("url", .s [.str "s3://", .out "dataBucket" "bucket", .str "/raw/"]),
      ("storageIntegration", .s [.out "storageIntegration" "name"]),
      ("comment", .s [.str "External S3 stage managed by Pulumi"])] }

/-- Resource 12 (`index.ts` lines 176-194): the destination table. -/
def taxiTable : ResourceDescriptor :=
  { varName := "taxiTable"
    logicalName := projectName ++ "-taxi-table"
    pulumiType := "snowflake:index/table:Table"
    args := [
      ("name", .s [.str "TAXI_DATA"]),
      ("database", .s [.out "database" "name"]),
      ("schema", .s [.out "schema" "name"]),
      ("columns", .columns [
        { name := "VENDOR_ID", type := "NUMBER", default := none },
        { name := "PICKUP_DATETIME", type := "TIMESTAMP", default := none },
        { name := "DROPOFF_DATETIME", type := "TIMESTAMP", default := none },
        { name := "PASSENGER_COUNT", type := "NUMBER", default := none },
        { name := "TRIP_DISTANCE", type := "FLOAT", default := none },
        { name := "PICKUP_LOCATION_ID", type := "NUMBER", default := none },
        { name := "DROPOFF_LOCATION_ID", type := "NUMBER", default := none },
        { name := "FARE_AMOUNT", type := "FLOAT", default := none },
        { name := "TIP_AMOUNT", type := "FLOAT", default := none },
        { name := "TOTAL_AMOUNT", type := "FLOAT", default := none },
        { name := "LOADED_AT", type := "TIMESTAMP",
          default := some "CURRENT_TIMESTAMP()" }]),
      ("comment", .s [.str "NYC Taxi trip data loaded from S3"])] }

/-- One evaluation of `index.ts`: the twelve resource descriptors in
declaration order. -/
def program (cfg : Config) : List ResourceDescriptor :=
  [dataBucket cfg, bucketPolicy, snowflakeRole cfg, snowflakePolicy,
   warehouse, database, schema, storageIntegration,
   csvFileFormat, parquetFileFormat, s3Stage, taxiTable]

/-- The value of a stack export: either a single (possibly interpolated)
string output or an object of named string outputs. -/
inductive ExportValue where
  | strOut (v : SVal)
  | obj (fields : List (String × SVal))
deriving DecidableEq, Repr

/-- `index.ts` lines 200-205: the `awsOutputs` export object. -/
def awsOutputs : List (String × SVal) :=
  [("bucketName", [.out "dataBucket" "bucket"]),
   ("bucketArn", [.out "dataBucket" "arn"]),
   ("roleArn", [.out "snowflakeRole" "arn"]),
   ("roleName", [.out "snowflakeRole" "name"])]

/-- `index.ts` lines 207-214: the `snowflakeOutputs` export object. -/
def snowflakeOutputs : List (String × SVal) :=
  [("warehouseName", [.out "warehouse" "name"]),
   ("databaseName", [.out "database" "name"]),
   ("schemaName", [.out "schema" "name"]),
   ("stageName", [.out "s3Stage" "name"]),
   ("tableName", [.out "taxiTable" "name"]),
   ("storageIntegrationName", [.out "storageIntegration" "name"])]

/-- The 80-character `=` separator line of the `instructions` banner. -/
def sepLine : String := ⟨List.replicate 80 '='⟩

/-- `index.ts` lines 216-243: the `instructions` export, a
`pulumi.interpolate` template interleaving literal text with the bucket,
warehouse, database and schema names. -/
def instructions : SVal :=
  [.str ("\n" ++ sepLine ++ "\nDEPLOYMENT COMPLETE! Next steps:\n" ++ sepLine ++ "\n\n1. Upload sample data to S3:\n   aws s3 cp data/sample.csv s3://"),
   .out "dataBucket" "bucket",
   .str ("/raw/\n\n2. Or download NYC Taxi data (1M+ rows):\n   wget https://d37ci6vzurychx.cloudfront.net/trip-data/yellow_tripdata_2024-01.parquet\n   aws s3 cp yellow_tripdata_2024-01.parquet s3://"),
   .out "dataBucket" "bucket",
   .str "/raw/\n\n3. Run COPY INTO in Snowflake to load data:\n   USE WAREHOUSE ",
   .out "warehouse" "name",
   .str ";\n   USE DATABASE ",
   .out "database" "name",
   .str ";\n   USE SCHEMA ",
   .out "schema" "name",
   .str (";\n\n   COPY INTO TAXI_DATA\n   FROM @S3_STAGE\n   FILE_FORMAT = PARQUET_FORMAT\n   MATCH_BY_COLUMN_NAME = CASE_INSENSITIVE;\n\n4. Verify data loaded:\n   SELECT COUNT(*) FROM TAXI_DATA;\n   -- Should show 1M+ rows loaded in <30 seconds!\n\n" ++ sepLine ++ "\n")]

/-- The three `export const` declarations of `index.ts`, in source order. -/
def programExports : List (String × ExportValue) :=
  [("awsOutputs", .obj awsOutputs),
   ("snowflakeOutputs", .obj snowflakeOutputs),
   ("instructions", .strOut instructions)]

/-- The flattened key surface of the exports: the field names of the export
objects, and the export name itself for a bare string export. -/
def exportSurfaceKeys : List String :=
  (programExports.map fun kv =>
    match kv.2 with
    | .obj fields => fields.map Prod.fst
    | .strOut _ => [kv.1]).flatten

/-- The attribute references occurring in a string value. -/
def SVal.outs (v : SVal) : List (String × String) :=
  v.filterMap fun p =>
    match p with
    | .str _ => none
    | .out r a => some (r, a)

/-- The attribute references occurring in an argument value (for a policy
document, those inside its statements' resource lists; principals and
conditions in `index.ts` are always literal strings). -/
def AttrValue.outs : AttrValue → List (String × String)
  | .s v => v.outs
  | .b _ => []
  | .n _ => []
  | .sList vs => (vs.map SVal.outs).flatten
  | .strMap _ => []
  | .json d => (d.statement.map fun st => (st.resources.map SVal.outs).flatten).flatten
  | .columns _ => []

/-- All attribute references a descriptor makes to other resources. -/
def ResourceDescriptor.outs (r : ResourceDescriptor) : List (String × String) :=
  (r.args.map fun kv => kv.2.outs).flatten

/-- Walk a descriptor list in declaration order, checking that every
attribute reference names a resource variable declared strictly earlier. -/
def refsResolvedFrom : List String → List ResourceDescriptor → Bool
  | _, [] => true
  | seen, r :: rest =>
    (r.outs.all fun p => seen.contains p.1) && refsResolvedFrom (r.varName :: seen) rest

/-- Every attribute reference in the list resolves to an earlier-declared
resource. -/
def declarationOrderOk (rs : List ResourceDescriptor) : Bool :=
  refsResolvedFrom [] rs

/-- Resolve a string value under an assignment `σ` of provisioned output
attributes (what the engine substitutes for each reference at apply time). -/
def SVal.resolve (σ : String → String → String) : SVal → String
  | [] => ""
  | .str s :: rest => s ++ SVal.resolve σ rest
  | .out r a :: rest => σ r a ++ SVal.resolve σ rest

/-- Resolve every resource string of a policy statement under `σ`. -/
def Statement.resolve (σ : String → String → String) (st : Statement SVal) :
    Statement String :=
  { sid := st.sid
    effect := st.effect
    principal := st.principal
    actions := st.actions
    resources := st.resources.map (SVal.resolve σ)
    condition := st.condition }

/-- Resolve a whole policy document under `σ`. -/
def PolicyDoc.resolve (σ : String → String → String) (d : PolicyDoc SVal) :
    PolicyDoc String :=
  { version := d.version
    statement := d.statement.map (Statement.resolve σ) }

/-- Replace the timestamp-bearing `bucket` name argument of the bucket
descriptor by an empty value, leaving every other argument and descriptor
untouched (used to factor the program into its timestamp-dependent and
timestamp-independent parts). -/
def scrubBucketNameArg (r : ResourceDescriptor) : ResourceDescriptor :=
  if r.varName = "dataBucket" then
    { r with args := r.args.map fun kv =>
        if kv.1 = "bucket" then (kv.1, AttrValue.s []) else kv }
  else r

/-! Decimal rendering of the `Date.now()` timestamp.  `decChars n` is the
digit-character list of `n`, most significant first; it is proved equal to
the list `Nat.toDigits 10 n` underlying `Nat.repr` (hence `toString` on
`Nat`), which yields injectivity of the rendered timestamp and the fact
that it contains no dash. -/

/-- Decimal digit characters of `n`, most significant digit first. -/
def decChars (n : Nat) : List Char :=
  if n < 10 then [Nat.digitChar n]
  else decChars (n / 10) ++ [Nat.digitChar (n % 10)]
decreasing_by exact Nat.div_lt_self (by omega) (by omega)

theorem toDigitsCore_eq_decChars (fuel : Nat) :
    ∀ (n : Nat) (ds : List Char), n < fuel →
      Nat.toDigitsCore 10 fuel n ds = decChars n ++ ds := by
  induction fuel with
  | zero => intro n ds h; omega
  | succ fuel ih =>
    intro n ds h
    by_cases h10 : n < 10
    · have hdiv : n / 10 = 0 := by omega
      have hmod : n % 10 = n := by omega
      simp [Nat.toDigitsCore, hdiv, decChars, h10, hmod]
    · have hdiv : ¬ n / 10 = 0 := by omega
      have hlt : n / 10 < fuel := by
        have := Nat.div_lt_self (by omega : 0 < n) (by omega : 1 < 10)
        omega
      simp only [Nat.toDigitsCore, hdiv, if_false]
      rw [ih (n / 10) _ hlt]
      conv_rhs => rw [decChars]
      simp [h10, List.append_assoc]

theorem toDigits_eq_decChars (n : Nat) : Nat.toDigits 10 n = decChars n := by
  rw [Nat.toDigits, toDigitsCore_eq_decChars (n + 1) n [] (Nat.lt_succ_self n),
    List.append_nil]

theorem repr_data_eq_decChars (n : Nat) : (Nat.repr n).data = decChars n := by
  show Nat.toDigits 10 n = decChars n
  exact toDigits_eq_decChars n

theorem digitChar_isDigit (d : Nat) (h : d < 10) : (Nat.digitChar d).isDigit = true := by
  interval_cases d <;> decide

theorem digitChar_inj (d1 d2 : Nat) (h1 : d1 < 10) (h2 : d2 < 10)
    (h : Nat.digitChar d1 = Nat.digitChar d2) : d1 = d2 := by
  interval_cases d1 <;> interval_cases d2 <;> revert h <;> decide

theorem decChars_ne_nil (n : Nat) : decChars n ≠ [] := by
  rw [decChars]; split <;> simp

theorem decChars_isDigit (n : Nat) : ∀ c ∈ decChars n, c.isDigit = true := by
  induction n using Nat.strong_induction_on with
  | _ n ih =>
    rw [decChars]
    split
    · next h =>
      intro c hc
      rw [List.mem_singleton] at hc
      subst hc
      exact digitChar_isDigit n h
    · next h =>
      intro c hc
      rcases List.mem_append.mp hc with hc | hc
      · exact ih (n / 10) (Nat.div_lt_self (by omega) (by omega)) c hc
      · rw [List.mem_singleton] at hc
        subst hc
        exact digitChar_isDigit (n % 10) (by omega)

theorem decChars_inj (m : Nat) : ∀ n, decChars m = decChars n → m = n := by
  induction m using Nat.strong_induction_on with
  | _ m ih =>
    intro n h
    conv at h => lhs; rw [decChars]
    conv at h => rhs; rw [decChars]
    by_cases hm : m < 10
    · rw [if_pos hm] at h
      by_cases hn : n < 10
      · rw [if_pos hn] at h
        exact digitChar_inj m n hm hn (List.cons.inj h).1
      · rw [if_neg hn] at h
        exfalso
        have hlen := congrArg List.length h
        simp only [List.length_append, List.length_cons, List.length_nil] at hlen
        exact decChars_ne_nil (n / 10) (List.length_eq_zero.mp (by omega))
    · rw [if_neg hm] at h
      by_cases hn : n < 10
      · rw [if_pos hn] at h
        exfalso
        have hlen := congrArg List.length h
        simp only [List.length_append, List.length_cons, List.length_nil] at hlen
        exact decChars_ne_nil (m / 10) (List.length_eq_zero.mp (by omega))
      · rw [if_neg hn] at h
        obtain ⟨h1, h2⟩ := List.append_inj' h (by simp)
        have hdiv := ih (m / 10) (Nat.div_lt_self (by omega) (by omega)) (n / 10) h1
        have hmod := digitChar_inj (m % 10) (n % 10) (by omega) (by omega)
          (List.cons.inj h2).1
        omega

theorem natRepr_inj (m n : Nat) (h : Nat.repr m = Nat.repr n) : m = n :=
  decChars_inj m n (by rw [← repr_data_eq_decChars, ← repr_data_eq_decChars, h])

theorem isDigit_ne_dash (c : Char) (h : c.isDigit = true) : c ≠ '-' := by
  intro he
  subst he
  exact absurd h (by decide)

/-- If two strings of the shape `u ++ "-" ++ v` agree and neither `u` nor
`u'` contains a dash, the parts agree. -/
theorem append_dash_inj (u : List Char) : ∀ (u' v v' : List Char),
    (∀ c ∈ u, c ≠ '-') → (∀ c ∈ u', c ≠ '-') →
    u ++ '-' :: v = u' ++ '-' :: v' → u = u' ∧ v = v' := by
  induction u with
  | nil =>
    intro u' v v' _ hu' h
    cases u' with
    | nil =>
      simp only [List.nil_append] at h
      exact ⟨rfl, (List.cons.inj h).2⟩
    | cons c' cs' =>
      exfalso
      simp only [List.nil_append, List.cons_append] at h
      exact hu' c' (List.mem_cons_self c' cs') (List.cons.inj h).1.symm
  | cons c cs ih =>
    intro u' v v' hu hu' h
    cases u' with
    | nil =>
      exfalso
      simp only [List.nil_append, List.cons_append] at h
      exact hu c (List.mem_cons_self c cs) (List.cons.inj h).1
    | cons c' cs' =>
      simp only [List.cons_append] at h
      obtain ⟨h1, h2⟩ := List.cons.inj h
      obtain ⟨h3, h4⟩ := ih cs' v v'
        (fun x hx => hu x (List.mem_cons_of_mem _ hx))
        (fun x hx => hu' x (List.mem_cons_of_mem _ hx)) h2
      exact ⟨by rw [h1, h3], h4⟩

theorem toString_nat_eq_repr (n : Nat) : toString n = Nat.repr n := rfl

/-- The bucket name determines both the environment and the timestamp: two
bucket names agree only when both configuration components agree. -/
theorem bucketName_inj (e1 e2 : String) (t1 t2 : Nat)
    (h : bucketName ⟨e1, t1⟩ = bucketName ⟨e2, t2⟩) : e1 = e2 ∧ t1 = t2 := by
  have hd : (bucketName ⟨e1, t1⟩).data = (bucketName ⟨e2, t2⟩).data := by rw [h]
  simp only [bucketName, toString_nat_eq_repr, String.data_append,
    List.append_assoc] at hd
  have hd2 := List.append_cancel_left (List.append_cancel_left hd)
  simp only [repr_data_eq_decChars] at hd2
  have hd3 : e1.data ++ '-' :: decChars t1 = e2.data ++ '-' :: decChars t2 := by
    simpa using hd2
  have hrev := congrArg List.reverse hd3
  simp only [List.reverse_append, List.reverse_cons, List.append_assoc,
    List.singleton_append] at hrev
  have hdashfree1 : ∀ c ∈ (decChars t1).reverse, c ≠ '-' := fun c hc =>
    isDigit_ne_dash c (decChars_isDigit t1 c (List.mem_reverse.mp hc))
  have hdashfree2 : ∀ c ∈ (decChars t2).reverse, c ≠ '-' := fun c hc =>
    isDigit_ne_dash c (decChars_isDigit t2 c (List.mem_reverse.mp hc))
  obtain ⟨hu, hv⟩ := append_dash_inj ((decChars t1).reverse) ((decChars t2).reverse)
    (e1.data.reverse) (e2.data.reverse) hdashfree1 hdashfree2 hrev
  constructor
  · exact String.ext (List.reverse_injective hv)
  · exact decChars_inj t1 t2 (List.reverse_injective hu)

/-- The first descriptor's first argument value (the bucket name slot). -/
def headBucketArg (rs : List ResourceDescriptor) : Option AttrValue :=
  rs.head?.bind fun r => r.args.head?.map Prod.snd

theorem program_headBucketArg (cfg : Config) :
    headBucketArg (program cfg) = some (.s [.str (bucketName cfg)]) := rfl

theorem program_ne_of_bucketName_ne (c1 c2 : Config)
    (h : bucketName c1 ≠ bucketName c2) : program c1 ≠ program c2 := by
  intro he
  apply h
  have hb := congrArg headBucketArg he
  rw [program_headBucketArg, program_headBucketArg] at hb
  simpa using hb

/-- The column list declared by the table descriptor. -/
def tableColumns : List Column :=
  match taxiTable.args.lookup "columns" with
  | some (.columns cs) => cs
  | _ => []

/-- C1 counterexample: the claim says two evaluations of the program under
the same fixed configuration (project name and stack) produce identical
descriptors including an identical bucket name; but the bucket name embeds
`Date.now()`, so evaluating the `dev` stack at instant 0 and at instant 1
yields different descriptor lists. -/
theorem two_evaluations_differ : program ⟨"dev", 0⟩ ≠ program ⟨"dev", 1⟩ := by
  decide

/-- C1 (amended): for a fixed configuration, the descriptors are identical
across evaluations except for the bucket name, whose `Date.now()` component
makes any two evaluations at different instants differ: erasing the bucket
name argument makes the descriptor lists of any two evaluations equal,
while evaluations at distinct timestamps always produce distinct
descriptor lists. -/
theorem reapply_identical_up_to_timestamp (e : String) (t1 t2 : Nat) :
    (program ⟨e, t1⟩).map scrubBucketNameArg
      = (program ⟨e, t2⟩).map scrubBucketNameArg
    ∧ (t1 ≠ t2 → program ⟨e, t1⟩ ≠ program ⟨e, t2⟩) :=
  ⟨rfl, fun hne => program_ne_of_bucketName_ne ⟨e, t1⟩ ⟨e, t2⟩
    fun hb => hne (bucketName_inj e e t1 t2 hb).2⟩

/-- C1 witness: the amended statement at the concrete configuration
`("dev", 0)` versus `("dev", 1)`. -/
theorem reapply_identical_up_to_timestamp_witness :
    (program ⟨"dev", 0⟩).map scrubBucketNameArg
      = (program ⟨"dev", 1⟩).map scrubBucketNameArg
    ∧ program ⟨"dev", 0⟩ ≠ program ⟨"dev", 1⟩ :=
  ⟨(reapply_identical_up_to_timestamp "dev" 0 1).1,
   (reapply_identical_up_to_timestamp "dev" 0 1).2 (by decide)⟩

/-- C2 counterexample: the claim says all generated Snowflake object names
differ between two distinct environments; but the eight Snowflake
descriptors (warehouse, database, schema, storage integration, both file
formats, stage, table — and hence every Snowflake object name) are
identical for the `dev` and `prod` stacks. -/
theorem snowflake_names_collide_across_envs :
    ("dev" : String) ≠ "prod"
    ∧ (program ⟨"dev", 0⟩).drop 4 = (program ⟨"prod", 0⟩).drop 4 := by
  decide

/-- C2 (amended): generated bucket names never collide between distinct
environments (the environment is recoverable from the name because the
timestamp suffix after the final dash is all digits), but the Snowflake
object names do not differ between environments: the eight Snowflake
descriptors are environment-independent constants. -/
theorem names_across_environments (e1 e2 : String) (t1 t2 : Nat) :
    (e1 ≠ e2 → bucketName ⟨e1, t1⟩ ≠ bucketName ⟨e2, t2⟩)
    ∧ (program ⟨e1, t1⟩).drop 4 = (program ⟨e2, t2⟩).drop 4 :=
  ⟨fun hne hb => hne (bucketName_inj e1 e2 t1 t2 hb).1, rfl⟩

/-- C2 witness: the amended statement at the concrete environments `dev`
and `prod` with timestamps 0 and 1. -/
theorem names_across_environments_witness :
    bucketName ⟨"dev", 0⟩ ≠ bucketName ⟨"prod", 1⟩
    ∧ (program ⟨"dev", 0⟩).drop 4 = (program ⟨"prod", 1⟩).drop 4 :=
  ⟨(names_across_environments "dev" "prod" 0 1).1 (by decide),
   (names_across_environments "dev" "prod" 0 1).2⟩

/-- C3 counterexample: the claim says the program declares exactly 11
resource descriptors; it declares 12 (4 AWS + 8 Snowflake — the README's
count of 11 omits the bucket policy). -/
theorem resource_count_not_eleven : (program ⟨"dev", 0⟩).length ≠ 11 := by
  decide

/-- C3 (amended): the program declares exactly 12 resource descriptors
for every configuration, and the bucket descriptor sets its force-delete
flag (`forceDestroy`) to `true`, so teardown is permitted even when the
bucket contains objects. -/
theorem twelve_resources_force_destroy (cfg : Config) :
    (program cfg).length = 12
    ∧ (dataBucket cfg).args.lookup "forceDestroy" = some (.b true) :=
  ⟨rfl, rfl⟩

/-- C4: both cross-cloud references are attribute bindings, never guessed
literals: the storage integration's `storageAwsRoleArn` is exactly the
reference to the role's `arn` output, and the stage's `url` interpolates
the reference to the bucket's provisioned `bucket` name output; under any
assignment `σ` of provisioned attribute values they resolve to the actual
role ARN and to `s3://<actual bucket name>/raw/`. -/
theorem cross_cloud_attribute_bindings (σ : String → String → String) :
    storageIntegration.args.lookup "storageAwsRoleArn"
      = some (.s [.out "snowflakeRole" "arn"])
    ∧ SVal.resolve σ [.out "snowflakeRole" "arn"] = σ "snowflakeRole" "arn"
    ∧ s3Stage.args.lookup "url"
      = some (.s [.str "s3://", .out "dataBucket" "bucket", .str "/raw/"])
    ∧ SVal.resolve σ [.str "s3://", .out "dataBucket" "bucket", .str "/raw/"]
      = "s3://" ++ σ "dataBucket" "bucket" ++ "/raw/" := by
  refine ⟨rfl, by simp [SVal.resolve], rfl, by simp [SVal.resolve, String.append_assoc]⟩

/-- C5: the dependency graph induced by attribute references is acyclic in
the strong sense that every reference of every descriptor names a resource
declared strictly earlier in the program, for every configuration; and the
role's trust policy contains no attribute reference at all — its dependence
on the storage integration's generated identity is not expressed as an
edge (it is left as placeholder literals). -/
theorem dependency_graph_well_ordered (cfg : Config) :
    declarationOrderOk (program cfg) = true ∧ (snowflakeRole cfg).outs = [] :=
  ⟨rfl, rfl⟩

/-- C5 witness: the statement at the concrete configuration `("dev", 0)`. -/
theorem dependency_graph_well_ordered_witness :
    declarationOrderOk (program ⟨"dev", 0⟩) = true
    ∧ (snowflakeRole ⟨"dev", 0⟩).outs = [] :=
  dependency_graph_well_ordered ⟨"dev", 0⟩

/-- C6: the role's assume-role trust policy is deliberately incomplete:
its single statement's principal is the wildcard `{ AWS: "*" }`, its
`sts:ExternalId` condition is the fixed placeholder string
`snowflake_external_id`, and the policy value holds no attribute
reference, so neither value is bound to any StorageIntegration output. -/
theorem trust_policy_placeholder (cfg : Config) :
    (snowflakeRole cfg).args.lookup "assumeRolePolicy"
      = some (.json assumeRolePolicyDocument)
    ∧ assumeRolePolicyDocument.statement.map (fun st => st.principal)
      = [some (.aws "*")]
    ∧ assumeRolePolicyDocument.statement.map (fun st => st.condition)
      = [some { stringEquals := [("sts:ExternalId", "snowflake_external_id")] }]
    ∧ (AttrValue.json assumeRolePolicyDocument).outs = [] :=
  ⟨rfl, rfl, rfl, rfl⟩

/-- C7 counterexample: the claim says the exported output surface is a
flat mapping containing exactly the ten listed identifiers; but the
program additionally exports `instructions` (an interpolated usage text),
so the flattened export surface has an eleventh key. -/
theorem export_surface_not_exactly_ten :
    exportSurfaceKeys ≠ ["bucketName", "bucketArn", "roleArn", "roleName",
      "warehouseName", "databaseName", "schemaName", "stageName", "tableName",
      "storageIntegrationName"]
    ∧ "instructions" ∈ exportSurfaceKeys := by
  decide

set_option maxRecDepth 8000 in
/-- C7 (amended): the exports are the two objects `awsOutputs` (bucket
name, bucket ARN, role ARN, role name) and `snowflakeOutputs` (warehouse,
database, schema, stage, table and storage-integration names) — together a
mapping of exactly the ten claimed string identifiers, each bound to the
corresponding resource output attribute — plus a third export,
`instructions`, carrying an interpolated usage text. -/
theorem export_surface_contents :
    programExports.map Prod.fst = ["awsOutputs", "snowflakeOutputs", "instructions"]
    ∧ exportSurfaceKeys = ["bucketName", "bucketArn", "roleArn", "roleName",
        "warehouseName", "databaseName", "schemaName", "stageName", "tableName",
        "storageIntegrationName", "instructions"]
    ∧ awsOutputs.lookup "bucketName" = some [.out "dataBucket" "bucket"]
    ∧ awsOutputs.lookup "bucketArn" = some [.out "dataBucket" "arn"]
    ∧ awsOutputs.lookup "roleArn" = some [.out "snowflakeRole" "arn"]
    ∧ awsOutputs.lookup "roleName" = some [.out "snowflakeRole" "name"]
    ∧ snowflakeOutputs.lookup "warehouseName" = some [.out "warehouse" "name"]
    ∧ snowflakeOutputs.lookup "databaseName" = some [.out "database" "name"]
    ∧ snowflakeOutputs.lookup "schemaName" = some [.out "schema" "name"]
    ∧ snowflakeOutputs.lookup "stageName" = some [.out "s3Stage" "name"]
    ∧ snowflakeOutputs.lookup "tableName" = some [.out "taxiTable" "name"]
    ∧ snowflakeOutputs.lookup "storageIntegrationName"
        = some [.out "storageIntegration" "name"]
    ∧ programExports.lookup "instructions" = some (.strOut instructions) := by
  decide

/-- C8: for every configuration, the bucket descriptor's name is the
string `data-pipeline-data-<environment>-<timestamp>` (project name,
`-data-`, the stack name, and the `Date.now()` value), and its
`forceDestroy` flag is `true`. -/
theorem bucket_name_shape (cfg : Config) :
    (dataBucket cfg).args.lookup "bucket"
      = some (.s [.str (projectName ++ "-data-" ++ cfg.environment ++ "-"
          ++ toString cfg.timestamp)])
    ∧ (dataBucket cfg).args.lookup "forceDestroy" = some (.b true) :=
  ⟨rfl, rfl⟩

/-- C9: the table declares exactly the written ordered column list: 11
columns from `VENDOR_ID` to `LOADED_AT`, each with a name and a type, and
`LOADED_AT` is the only column carrying a default
(`CURRENT_TIMESTAMP()`). -/
theorem table_columns_ordered :
    tableColumns.map Column.name
      = ["VENDOR_ID", "PICKUP_DATETIME", "DROPOFF_DATETIME", "PASSENGER_COUNT",
         "TRIP_DISTANCE", "PICKUP_LOCATION_ID", "DROPOFF_LOCATION_ID",
         "FARE_AMOUNT", "TIP_AMOUNT", "TOTAL_AMOUNT", "LOADED_AT"]
    ∧ tableColumns.map Column.type
      = ["NUMBER", "TIMESTAMP", "TIMESTAMP", "NUMBER", "FLOAT", "NUMBER",
         "NUMBER", "FLOAT", "FLOAT", "FLOAT", "TIMESTAMP"]
    ∧ tableColumns.length = 11
    ∧ (tableColumns.filterMap fun c => c.default.map fun d => (c.name, d))
      = [("LOADED_AT", "CURRENT_TIMESTAMP()")] := by
  decide

/-- C10: under every assignment `σ` of provisioned output attributes (i.e.
for every evaluation), the bucket policy document is a single `Allow`
statement for principal `"*"` — imposing no principal restriction — that
grants exactly `s3:GetObject`, `s3:GetObjectVersion` and `s3:ListBucket`
on the bucket ARN and on every object under it (`<arn>/*`). -/
theorem bucket_policy_open_principal (σ : String → String → String) :
    bucketPolicy.args.lookup "policy" = some (.json bucketPolicyDocument)
    ∧ (bucketPolicyDocument.resolve σ).statement
      = [{ sid := some "AllowSnowflakeAccess"
           effect := "Allow"
           principal := some (.plain "*")
           actions := ["s3:GetObject", "s3:GetObjectVersion", "s3:ListBucket"]
           resources := [σ "dataBucket" "arn", σ "dataBucket" "arn" ++ "/*"]
           condition := none }] := by
  refine ⟨rfl, ?_⟩
  simp [PolicyDoc.resolve, Statement.resolve, bucketPolicyDocument, SVal.resolve]

end PulumiSnowflake
